import Mathlib

/-!
Verification of the ChromaDB export pipeline of claude-memory-visualizer
(scripts/export-chromadb.py).

The script fetches a collection from a ChromaDB store, computes three 3D
projections (PCA, UMAP, t-SNE) of the embedding matrix, rescales each into a
fixed bounding box, and writes a single JSON document.

Embedding conventions:
  - real values are modelled by ℚ (the script computes with IEEE doubles;
    all properties proved here are exact-arithmetic statements),
  - an N×3 matrix is a list of Vec3,
  - an N×D embedding matrix is a list of rows (List ℚ),
  - the external projection libraries (sklearn PCA/TSNE, umap-learn) are not
    part of the repository; they are modelled from the spec, see
    ProjectionAlgorithms below.
-/

namespace ChromaExport

/-- A row of an N×3 projection matrix. -/
structure Vec3 where
  x : ℚ
  y : ℚ
  z : ℚ
deriving DecidableEq

/-- Per-axis minimum, as computed by numpy min over axis 0 (the source only
applies it to non-empty matrices; the empty case is given a junk value 0). -/
def listMin : List ℚ → ℚ
  | [] => 0
  | v :: vs => vs.foldl min v

/-- Per-axis maximum, as computed by numpy max over axis 0. -/
def listMax : List ℚ → ℚ
  | [] => 0
  | v :: vs => vs.foldl max v

/-- Embeds normalize_projection (export-chromadb.py lines 87-98), statement by
statement, one let per axis component of each numpy array:
min_vals = points.min(axis=0); max_vals = points.max(axis=0);
ranges = max_vals - min_vals; ranges[ranges == 0] = 1;
normalized = (points - min_vals) / ranges - 0.5; normalized *= scale.
The source's default scale is 40.0; callers here pass it explicitly. -/
def normalize_projection (points : List Vec3) (scale : ℚ) : List Vec3 :=
  let min_x := listMin (points.map Vec3.x)
  let min_y := listMin (points.map Vec3.y)
  let min_z := listMin (points.map Vec3.z)
  let max_x := listMax (points.map Vec3.x)
  let max_y := listMax (points.map Vec3.y)
  let max_z := listMax (points.map Vec3.z)
  let range_x := max_x - min_x
  let range_y := max_y - min_y
  let range_z := max_z - min_z
  let range_x := if range_x = 0 then 1 else range_x
  let range_y := if range_y = 0 then 1 else range_y
  let range_z := if range_z = 0 then 1 else range_z
  let normalized := points.map (fun p =>
    Vec3.mk ((p.x - min_x) / range_x - 1/2) ((p.y - min_y) / range_y - 1/2)
      ((p.z - min_z) / range_z - 1/2))
  let normalized := normalized.map (fun p =>
    Vec3.mk (p.x * scale) (p.y * scale) (p.z * scale))
  normalized

lemma foldl_min_le_init (l : List ℚ) (a : ℚ) : l.foldl min a ≤ a := by
  induction l generalizing a with
  | nil => simp
  | cons b l ih => exact le_trans (ih (min a b)) (min_le_left a b)

lemma foldl_min_le_mem {l : List ℚ} {b : ℚ} (h : b ∈ l) (a : ℚ) :
    l.foldl min a ≤ b := by
  induction l generalizing a with
  | nil => cases h
  | cons c l ih =>
    rcases List.mem_cons.mp h with rfl | h
    · exact le_trans (foldl_min_le_init l (min a b)) (min_le_right a b)
    · exact ih h (min a c)

lemma init_le_foldl_max (l : List ℚ) (a : ℚ) : a ≤ l.foldl max a := by
  induction l generalizing a with
  | nil => simp
  | cons b l ih => exact le_trans (le_max_left a b) (ih (max a b))

lemma mem_le_foldl_max {l : List ℚ} {b : ℚ} (h : b ∈ l) (a : ℚ) :
    b ≤ l.foldl max a := by
  induction l generalizing a with
  | nil => cases h
  | cons c l ih =>
    rcases List.mem_cons.mp h with rfl | h
    · exact le_trans (le_max_right a b) (init_le_foldl_max l (max a b))
    · exact ih h (max a c)

lemma listMin_le {vals : List ℚ} {v : ℚ} (h : v ∈ vals) : listMin vals ≤ v := by
  cases vals with
  | nil => cases h
  | cons a l =>
    rcases List.mem_cons.mp h with rfl | h
    · exact foldl_min_le_init l v
    · exact foldl_min_le_mem h a

lemma le_listMax {vals : List ℚ} {v : ℚ} (h : v ∈ vals) : v ≤ listMax vals := by
  cases vals with
  | nil => cases h
  | cons a l =>
    rcases List.mem_cons.mp h with rfl | h
    · exact init_le_foldl_max l v
    · exact mem_le_foldl_max h a

/-- The normalized value of one coordinate is within [-scale/2, scale/2]
(stated at the default scale 40). -/
lemma axis_bound {vals : List ℚ} {v : ℚ} (hv : v ∈ vals) :
    -20 ≤ ((v - listMin vals) /
        (if listMax vals - listMin vals = 0 then 1 else listMax vals - listMin vals)
        - 1/2) * 40 ∧
    ((v - listMin vals) /
        (if listMax vals - listMin vals = 0 then 1 else listMax vals - listMin vals)
        - 1/2) * 40 ≤ 20 := by
  have hmn : listMin vals ≤ v := listMin_le hv
  have hmx : v ≤ listMax vals := le_listMax hv
  by_cases h : listMax vals - listMin vals = 0
  · rw [if_pos h]
    have hv2 : v = listMin vals := by linarith
    rw [hv2]
    norm_num
  · rw [if_neg h]
    have hpos : 0 < listMax vals - listMin vals := by
      rcases lt_or_eq_of_le (by linarith : (0:ℚ) ≤ listMax vals - listMin vals) with hlt | heq
      · exact hlt
      · exact absurd heq.symm h
    have h0 : 0 ≤ (v - listMin vals) / (listMax vals - listMin vals) :=
      div_nonneg (by linarith) hpos.le
    have h1 : (v - listMin vals) / (listMax vals - listMin vals) ≤ 1 :=
      (div_le_one hpos).mpr (by linarith)
    constructor <;> linarith

/-- On a zero-range axis the normalized value collapses to -0.5 * scale = -20. -/
lemma axis_collapsed {vals : List ℚ} {v : ℚ} (hv : v ∈ vals)
    (h : listMax vals - listMin vals = 0) :
    ((v - listMin vals) /
        (if listMax vals - listMin vals = 0 then 1 else listMax vals - listMin vals)
        - 1/2) * 40 = -20 := by
  have hmn : listMin vals ≤ v := listMin_le hv
  have hmx : v ≤ listMax vals := le_listMax hv
  have hv2 : v = listMin vals := by linarith
  rw [if_pos h, hv2]
  norm_num

/-- C1: for every non-empty N×3 input and the default scale 40.0, every
coordinate of the matrix returned by normalize_projection lies in
[-scale/2, scale/2] = [-20, 20], on each of the three axes independently. -/
theorem normalize_projection_bounds (points : List Vec3) (hne : points ≠ []) :
    ∀ q ∈ normalize_projection points 40,
      (-20 ≤ q.x ∧ q.x ≤ 20) ∧ (-20 ≤ q.y ∧ q.y ≤ 20) ∧ (-20 ≤ q.z ∧ q.z ≤ 20) := by
  intro q hq
  simp only [normalize_projection, List.map_map, List.mem_map, Function.comp] at hq
  obtain ⟨p, hp, rfl⟩ := hq
  exact ⟨axis_bound (List.mem_map_of_mem Vec3.x hp),
    axis_bound (List.mem_map_of_mem Vec3.y hp),
    axis_bound (List.mem_map_of_mem Vec3.z hp)⟩

/-- Closed instance of C1 at a concrete two-point input. -/
theorem normalize_projection_bounds_witness :
    ([Vec3.mk 1 2 3, Vec3.mk 4 0 3] : List Vec3) ≠ [] ∧
    ∀ q ∈ normalize_projection [Vec3.mk 1 2 3, Vec3.mk 4 0 3] 40,
      (-20 ≤ q.x ∧ q.x ≤ 20) ∧ (-20 ≤ q.y ∧ q.y ≤ 20) ∧ (-20 ≤ q.z ∧ q.z ≤ 20) :=
  ⟨by decide, normalize_projection_bounds [Vec3.mk 1 2 3, Vec3.mk 4 0 3] (by decide)⟩

/-- C3: if an axis of a non-empty input has zero range, normalize_projection
substitutes 1 for that range (raising no error: it is a total function) and
every output value on that axis equals -0.5 * scale = -20 at the default
scale 40. Stated for each of the three axes. -/
theorem normalize_projection_zero_range (points : List Vec3) (hne : points ≠ []) :
    (listMax (points.map Vec3.x) - listMin (points.map Vec3.x) = 0 →
      ∀ q ∈ normalize_projection points 40, q.x = -20) ∧
    (listMax (points.map Vec3.y) - listMin (points.map Vec3.y) = 0 →
      ∀ q ∈ normalize_projection points 40, q.y = -20) ∧
    (listMax (points.map Vec3.z) - listMin (points.map Vec3.z) = 0 →
      ∀ q ∈ normalize_projection points 40, q.z = -20) := by
  refine ⟨fun h q hq => ?_, fun h q hq => ?_, fun h q hq => ?_⟩ <;>
    (simp only [normalize_projection, List.map_map, List.mem_map, Function.comp] at hq
     obtain ⟨p, hp, rfl⟩ := hq)
  · exact axis_collapsed (List.mem_map_of_mem Vec3.x hp) h
  · exact axis_collapsed (List.mem_map_of_mem Vec3.y hp) h
  · exact axis_collapsed (List.mem_map_of_mem Vec3.z hp) h

/-- Closed instance of C3 at a concrete input whose y axis has zero range. -/
theorem normalize_projection_zero_range_witness :
    ([Vec3.mk 1 7 3, Vec3.mk 4 7 5] : List Vec3) ≠ [] ∧
    (listMax (([Vec3.mk 1 7 3, Vec3.mk 4 7 5] : List Vec3).map Vec3.y) -
        listMin (([Vec3.mk 1 7 3, Vec3.mk 4 7 5] : List Vec3).map Vec3.y) = 0 ∧
      ∀ q ∈ normalize_projection [Vec3.mk 1 7 3, Vec3.mk 4 7 5] 40, q.y = -20) :=
  ⟨by decide, by norm_num [listMax, listMin],
    (normalize_projection_zero_range [Vec3.mk 1 7 3, Vec3.mk 4 7 5] (by decide)).2.1
      (by norm_num [listMax, listMin])⟩

/-- Buffer-level reading of normalize_projection (lines 87-98), tracking which
numpy buffers each statement writes. min_vals and max_vals are fresh arrays
(reductions); ranges = max_vals - min_vals allocates a fresh array, so the
masked write ranges[ranges == 0] = 1 mutates that fresh buffer only;
normalized = (points - min_vals) / ranges - 0.5 allocates a fresh array, so
normalized *= scale mutates that fresh buffer only. No statement writes to the
points buffer. The function returns the result together with the final
contents of the points buffer. -/
def normalize_projection_frame (points : List Vec3) (scale : ℚ) :
    List Vec3 × List Vec3 :=
  let min_x := listMin (points.map Vec3.x)
  let min_y := listMin (points.map Vec3.y)
  let min_z := listMin (points.map Vec3.z)
  let max_x := listMax (points.map Vec3.x)
  let max_y := listMax (points.map Vec3.y)
  let max_z := listMax (points.map Vec3.z)
  let range_x := max_x - min_x
  let range_y := max_y - min_y
  let range_z := max_z - min_z
  let range_x := if range_x = 0 then 1 else range_x
  let range_y := if range_y = 0 then 1 else range_y
  let range_z := if range_z = 0 then 1 else range_z
  let normalized := points.map (fun p =>
    Vec3.mk ((p.x - min_x) / range_x - 1/2) ((p.y - min_y) / range_y - 1/2)
      ((p.z - min_z) / range_z - 1/2))
  let normalized := normalized.map (fun p =>
    Vec3.mk (p.x * scale) (p.y * scale) (p.z * scale))
  (normalized, points)

/-- C9: normalize_projection does not mutate its input: the points buffer after
the call equals the input, and the result (computed in fresh storage) is
exactly the value normalize_projection returns. -/
theorem normalize_projection_preserves_input (points : List Vec3) (scale : ℚ) :
    (normalize_projection_frame points scale).2 = points ∧
    (normalize_projection_frame points scale).1 = normalize_projection points scale :=
  ⟨rfl, rfl⟩

lemma normalize_projection_length (points : List Vec3) (scale : ℚ) :
    (normalize_projection points scale).length = points.length := by
  simp [normalize_projection]

/-- A single point normalizes to the collapsed constant -0.5 * 40 = -20 on
every axis (all three ranges are zero). -/
lemma normalize_projection_single (v : Vec3) :
    normalize_projection [v] 40 = [Vec3.mk (-20) (-20) (-20)] := by
  simp only [normalize_projection, listMin, listMax, List.map_cons, List.map_nil,
    List.foldl_nil, sub_self, if_pos rfl]
  norm_num

/-- The adaptive t-SNE perplexity, line 73:
perplexity = min(30, max(5, n_samples // 5)). -/
def tsne_perplexity (n_samples : ℕ) : ℕ := min 30 (max 5 (n_samples / 5))

/-- Modelled from the spec: the three projection sub-algorithms are external
library calls (sklearn.decomposition.PCA, umap.UMAP,
sklearn.manifold.TSNE) whose code is not part of this repository. Following
spec section 4.2, each is modelled as a total, order-preserving map from the
N×D embedding matrix to an N×3 matrix: the model records only the row-count
contract (result has exactly N rows). The UMAP map takes its n_neighbors and
min_dist parameters; the t-SNE map takes its perplexity parameter. Fixed
random seeds make the real calls deterministic functions, matching this
functional model. -/
structure ProjectionAlgorithms where
  pca_fit_transform : List (List ℚ) → List Vec3
  umap_fit_transform : ℕ → ℚ → List (List ℚ) → List Vec3
  tsne_fit_transform : ℕ → List (List ℚ) → List Vec3
  pca_length : ∀ e, (pca_fit_transform e).length = e.length
  umap_length : ∀ k d e, (umap_fit_transform k d e).length = e.length
  tsne_length : ∀ p e, (tsne_fit_transform p e).length = e.length

/-- Embeds compute_projections (lines 42-84): PCA, then UMAP
(n_neighbors = 15, min_dist = 0.1), then t-SNE with the adaptive perplexity;
each result is normalized at the default scale 40 and stored under its method
name, in insertion order. -/
def compute_projections (alg : ProjectionAlgorithms) (embeddings : List (List ℚ)) :
    List (String × List Vec3) :=
  let n_samples := embeddings.length
  let pca_result := alg.pca_fit_transform embeddings
  let umap_result := alg.umap_fit_transform 15 (1/10) embeddings
  let perplexity := tsne_perplexity n_samples
  let tsne_result := alg.tsne_fit_transform perplexity embeddings
  [("pca", normalize_projection pca_result 40),
   ("umap", normalize_projection umap_result 40),
   ("tsne", normalize_projection tsne_result 40)]

/-- A concrete instance of the algorithm model, used to instantiate closed
statements: every embedding row is sent to the origin. -/
def zeroAlgorithms : ProjectionAlgorithms where
  pca_fit_transform e := e.map (fun _ => Vec3.mk 0 0 0)
  umap_fit_transform _ _ e := e.map (fun _ => Vec3.mk 0 0 0)
  tsne_fit_transform _ e := e.map (fun _ => Vec3.mk 0 0 0)
  pca_length e := by simp
  umap_length k d e := by simp
  tsne_length p e := by simp

lemma compute_projections_row_count (alg : ProjectionAlgorithms)
    (embeddings : List (List ℚ)) :
    ∀ mr ∈ compute_projections alg embeddings, mr.2.length = embeddings.length := by
  intro mr hmr
  simp only [compute_projections, List.mem_cons, List.not_mem_nil, or_false] at hmr
  rcases hmr with rfl | rfl | rfl
  · simp [normalize_projection_length, alg.pca_length]
  · simp [normalize_projection_length, alg.umap_length]
  · simp [normalize_projection_length, alg.tsne_length]

/-- C2: on a single document (N = 1) the projection computation completes (it
is a total function of the modelled algorithms) and each of the three methods
produces exactly one 3-tuple, normalized to the collapsed per-axis constant
-20. -/
theorem compute_projections_single_document (alg : ProjectionAlgorithms)
    (e : List ℚ) :
    compute_projections alg [e] =
      [("pca", [Vec3.mk (-20) (-20) (-20)]),
       ("umap", [Vec3.mk (-20) (-20) (-20)]),
       ("tsne", [Vec3.mk (-20) (-20) (-20)])] := by
  obtain ⟨p, hp⟩ := List.length_eq_one.mp (alg.pca_length [e])
  obtain ⟨u, hu⟩ := List.length_eq_one.mp (alg.umap_length 15 (1/10) [e])
  obtain ⟨t, ht⟩ :=
    List.length_eq_one.mp (alg.tsne_length (tsne_perplexity [e].length) [e])
  simp only [compute_projections, hp, hu, ht, normalize_projection_single]

/-- C8: for every N ≥ 1, the perplexity passed to the t-SNE call equals
clamp(N // 5, 5, 30) = min(30, max(5, N // 5)): it is 5 when N // 5 < 5, 30
when N // 5 > 30, and N // 5 otherwise. -/
theorem tsne_perplexity_clamp (n : ℕ) (h : 1 ≤ n) :
    tsne_perplexity n = min 30 (max 5 (n / 5)) ∧
    (n / 5 < 5 → tsne_perplexity n = 5) ∧
    (30 < n / 5 → tsne_perplexity n = 30) ∧
    (5 ≤ n / 5 → n / 5 ≤ 30 → tsne_perplexity n = n / 5) := by
  unfold tsne_perplexity
  omega

/-- Closed instance of C8 at N = 60 (60 // 5 = 12, inside the clamp). -/
theorem tsne_perplexity_clamp_witness :
    1 ≤ 60 ∧
    (tsne_perplexity 60 = min 30 (max 5 (60 / 5)) ∧
      (60 / 5 < 5 → tsne_perplexity 60 = 5) ∧
      (30 < 60 / 5 → tsne_perplexity 60 = 30) ∧
      (5 ≤ 60 / 5 → 60 / 5 ≤ 30 → tsne_perplexity 60 = 60 / 5)) :=
  ⟨by decide, tsne_perplexity_clamp 60 (by decide)⟩

/-- The parallel arrays stored for one ChromaDB collection, as returned by
collection.get(include=["embeddings", "documents", "metadatas"]). Metadata
values are modelled as strings (no claim inspects them). -/
structure CollectionData where
  ids : List String
  embeddings : List (List ℚ)
  documents : List String
  metadatas : List (List (String × String))

/-- A named collection of a ChromaDB store. -/
structure Collection where
  name : String
  data : CollectionData

/-- One entry of the output's documents array (lines 157-165). -/
structure DocumentOut where
  id : String
  text : String
  embedding : List ℚ
  metadata : List (String × String)

/-- The output's metadata header (lines 151-156). -/
structure ExportMetadata where
  name : String
  embedding_model : String
  embedding_dim : ℕ
  count : ℕ

/-- The assembled output document (lines 150-170). projections is none when
the key is absent. -/
structure CorpusExport where
  metadata : ExportMetadata
  documents : List DocumentOut
  projections : Option (List (String × List Vec3))

/-- Observable outcome of one run of export_chromadb: the process exit code
(0 for a normal return), the document written to the output file (none when
the run aborts before the write on line 178), and the list of available
collections printed on the error path (line 117). -/
structure ExportOutcome where
  exitCode : ℕ
  writtenFile : Option CorpusExport
  availableCollections : Option (List String)

/-- Python truthiness of the optional limit argument: None and 0 are falsy
(line 123 tests "if limit:"). -/
def optTruthy : Option ℕ → Bool
  | none => false
  | some n => n != 0

/-- The collection.get calls of lines 123-129: with a truthy limit the store
returns the first limit entries of each parallel array, otherwise all of
them. -/
def fetchData (d : CollectionData) (limit : Option ℕ) : CollectionData :=
  if optTruthy limit then
    { ids := d.ids.take ((limit.getD 0)),
      embeddings := d.embeddings.take ((limit.getD 0)),
      documents := d.documents.take ((limit.getD 0)),
      metadatas := d.metadatas.take ((limit.getD 0)) }
  else d

/-- Models the float(x) conversion of line 161; exact in the rational model. -/
def pyFloat (x : ℚ) : ℚ := x

/-- Embeds export_chromadb (lines 101-182). The ChromaDB client is modelled
as the list of the store's collections; get_collection is find? by name, and
the except branch of lines 115-118 prints the available collection names and
exits with status 1 before anything is written. On success the assembled
output (with the projections key added when projections are not skipped and
the collection is non-empty) is written and the process returns normally. -/
def export_chromadb (alg : ProjectionAlgorithms) (client : List Collection)
    (collection_name : String) (limit : Option ℕ) (skip_projections : Bool) :
    ExportOutcome :=
  match client.find? (fun c => c.name == collection_name) with
  | none =>
      { exitCode := 1, writtenFile := none,
        availableCollections := some (client.map Collection.name) }
  | some collection =>
      let data := fetchData collection.data limit
      let embeddings := data.embeddings
      let documents := data.documents
      let metadatas := data.metadatas
      let embedding_dim := if 0 < embeddings.length then (embeddings.getD 0 []).length else 0
      let docs : List DocumentOut := (List.range data.ids.length).map (fun i =>
        { id := data.ids.getD i "",
          text := if i < documents.length then documents.getD i "" else "",
          embedding :=
            if i < embeddings.length then (embeddings.getD i []).map pyFloat else [],
          metadata := if i < metadatas.length then metadatas.getD i [] else [] })
      let output : CorpusExport :=
        { metadata :=
            { name := "Claude Memory",
              embedding_model := "sentence-transformers/all-mpnet-base-v2",
              embedding_dim := embedding_dim,
              count := data.ids.length },
          documents := docs,
          projections := none }
      let output :=
        if skip_projections = false ∧ 0 < embeddings.length then
          { output with projections := some (compute_projections alg embeddings) }
        else output
      { exitCode := 0, writtenFile := some output, availableCollections := none }

lemma fetchData_zero (d : CollectionData) : fetchData d (some 0) = fetchData d none := rfl

lemma fetchData_embeddings_length (d : CollectionData) (limit : Option ℕ)
    (hlen : d.embeddings.length = d.ids.length) :
    (fetchData d limit).embeddings.length = (fetchData d limit).ids.length := by
  unfold fetchData
  split
  · simp [List.length_take, hlen]
  · exact hlen

lemma fetchData_nil (limit : Option ℕ) :
    fetchData ⟨[], [], [], []⟩ limit = ⟨[], [], [], []⟩ := by
  unfold fetchData
  split <;> simp

lemma map_pyFloat (l : List ℚ) : l.map pyFloat = l := by
  induction l with
  | nil => rfl
  | cons a l ih => simp [pyFloat, ih]

/-- C6: when the named collection does not exist, the run exits with the
distinct non-zero status 1, reports the names of the collections that do
exist, and writes no output file. -/
theorem export_missing_collection (alg : ProjectionAlgorithms)
    (client : List Collection) (collection_name : String) (limit : Option ℕ)
    (skip_projections : Bool)
    (hfind : client.find? (fun c => c.name == collection_name) = none) :
    export_chromadb alg client collection_name limit skip_projections =
      { exitCode := 1, writtenFile := none,
        availableCollections := some (client.map Collection.name) } := by
  unfold export_chromadb
  rw [hfind]

/-- Closed instance of C6: a store holding only a collection named "other" is
asked for "conversations". -/
theorem export_missing_collection_witness :
    (([⟨"other", ⟨[], [], [], []⟩⟩] : List Collection).find?
        (fun c => c.name == "conversations") = none) ∧
    export_chromadb zeroAlgorithms [⟨"other", ⟨[], [], [], []⟩⟩] "conversations"
        none false =
      { exitCode := 1, writtenFile := none,
        availableCollections := some ["other"] } :=
  ⟨rfl, export_missing_collection zeroAlgorithms [⟨"other", ⟨[], [], [], []⟩⟩]
    "conversations" none false rfl⟩

/-- C10: limit = 0 is falsy in Python, so the fetch is performed without a
limit and the run behaves identically to limit unset (None). -/
theorem export_limit_zero (alg : ProjectionAlgorithms) (client : List Collection)
    (collection_name : String) (skip_projections : Bool) :
    export_chromadb alg client collection_name (some 0) skip_projections =
      export_chromadb alg client collection_name none skip_projections := by
  unfold export_chromadb
  cases hf : client.find? (fun c => c.name == collection_name) with
  | none => rfl
  | some c => simp only [fetchData_zero]

/-- C5: exporting an empty collection (N = 0) completes with a normal exit,
documents == [], no projections key, and metadata.count == 0; the projection
algorithms are not invoked. -/
theorem export_empty_collection (alg : ProjectionAlgorithms)
    (client : List Collection) (collection_name : String) (limit : Option ℕ)
    (skip_projections : Bool) (c : Collection)
    (hfind : client.find? (fun x => x.name == collection_name) = some c)
    (hempty : c.data = ⟨[], [], [], []⟩) :
    export_chromadb alg client collection_name limit skip_projections =
      { exitCode := 0,
        writtenFile := some
          { metadata :=
              { name := "Claude Memory",
                embedding_model := "sentence-transformers/all-mpnet-base-v2",
                embedding_dim := 0, count := 0 },
            documents := [], projections := none },
        availableCollections := none } := by
  unfold export_chromadb
  rw [hfind]
  dsimp only
  rw [hempty, fetchData_nil]
  cases skip_projections <;> rfl

/-- Closed instance of C5: a store with one empty collection named
"conversations". -/
theorem export_empty_collection_witness :
    (([⟨"conversations", ⟨[], [], [], []⟩⟩] : List Collection).find?
        (fun x => x.name == "conversations") =
      some ⟨"conversations", ⟨[], [], [], []⟩⟩) ∧
    (Collection.mk "conversations" ⟨[], [], [], []⟩).data = ⟨[], [], [], []⟩ ∧
    export_chromadb zeroAlgorithms [⟨"conversations", ⟨[], [], [], []⟩⟩]
        "conversations" none false =
      { exitCode := 0,
        writtenFile := some
          { metadata :=
              { name := "Claude Memory",
                embedding_model := "sentence-transformers/all-mpnet-base-v2",
                embedding_dim := 0, count := 0 },
            documents := [], projections := none },
        availableCollections := none } :=
  ⟨rfl, rfl, export_empty_collection zeroAlgorithms
    [⟨"conversations", ⟨[], [], [], []⟩⟩] "conversations" none false
    ⟨"conversations", ⟨[], [], [], []⟩⟩ rfl rfl⟩

/-- C4: in a valid run (collection found, embeddings aligned with ids,
projections not skipped, N ≥ 1 documents fetched) the assembled export has
len(documents) == N == metadata.count and every method present in projections
has exactly N rows. -/
theorem export_alignment (alg : ProjectionAlgorithms) (client : List Collection)
    (collection_name : String) (limit : Option ℕ) (c : Collection)
    (hfind : client.find? (fun x => x.name == collection_name) = some c)
    (hlen : c.data.embeddings.length = c.data.ids.length)
    (hN : 1 ≤ (fetchData c.data limit).ids.length) :
    ∃ out,
      (export_chromadb alg client collection_name limit false).writtenFile = some out ∧
      out.documents.length = (fetchData c.data limit).ids.length ∧
      out.metadata.count = (fetchData c.data limit).ids.length ∧
      ∃ projs, out.projections = some projs ∧
        ∀ mr ∈ projs, mr.2.length = (fetchData c.data limit).ids.length := by
  have hel := fetchData_embeddings_length c.data limit hlen
  have hpos : 0 < (fetchData c.data limit).embeddings.length := by
    rw [hel]
    omega
  unfold export_chromadb
  rw [hfind]
  dsimp only
  rw [if_pos ⟨rfl, hpos⟩]
  refine ⟨_, rfl, ?_, ?_, ?_⟩
  · simp
  · rfl
  · refine ⟨_, rfl, ?_⟩
    intro mr hmr
    rw [compute_projections_row_count alg _ mr hmr, hel]

/-- Closed instance of C4: one collection with a single document. -/
theorem export_alignment_witness :
    (([⟨"conversations", ⟨["a"], [[1]], ["t"], [[]]⟩⟩] : List Collection).find?
        (fun x => x.name == "conversations") =
      some ⟨"conversations", ⟨["a"], [[1]], ["t"], [[]]⟩⟩) ∧
    (Collection.mk "conversations" ⟨["a"], [[1]], ["t"], [[]]⟩).data.embeddings.length =
      (Collection.mk "conversations" ⟨["a"], [[1]], ["t"], [[]]⟩).data.ids.length ∧
    1 ≤ (fetchData (Collection.mk "conversations" ⟨["a"], [[1]], ["t"], [[]]⟩).data
        none).ids.length ∧
    ∃ out,
      (export_chromadb zeroAlgorithms
          [⟨"conversations", ⟨["a"], [[1]], ["t"], [[]]⟩⟩] "conversations" none
          false).writtenFile = some out ∧
      out.documents.length =
        (fetchData (Collection.mk "conversations" ⟨["a"], [[1]], ["t"], [[]]⟩).data
          none).ids.length ∧
      out.metadata.count =
        (fetchData (Collection.mk "conversations" ⟨["a"], [[1]], ["t"], [[]]⟩).data
          none).ids.length ∧
      ∃ projs, out.projections = some projs ∧
        ∀ mr ∈ projs, mr.2.length =
          (fetchData (Collection.mk "conversations" ⟨["a"], [[1]], ["t"], [[]]⟩).data
            none).ids.length :=
  ⟨rfl, rfl, by decide,
    export_alignment zeroAlgorithms [⟨"conversations", ⟨["a"], [[1]], ["t"], [[]]⟩⟩]
      "conversations" none ⟨"conversations", ⟨["a"], [[1]], ["t"], [[]]⟩⟩ rfl rfl
      (by decide)⟩

/-- C7: every embedding value of the output equals the corresponding fetched
source value, at the same document index and in the same order: document i of
the output carries exactly the fetched embedding row i. -/
theorem export_embedding_round_trip (alg : ProjectionAlgorithms)
    (client : List Collection) (collection_name : String) (limit : Option ℕ)
    (skip_projections : Bool) (c : Collection)
    (hfind : client.find? (fun x => x.name == collection_name) = some c)
    (i : ℕ) (hi : i < (fetchData c.data limit).ids.length)
    (hie : i < (fetchData c.data limit).embeddings.length) :
    ∃ out,
      (export_chromadb alg client collection_name limit
          skip_projections).writtenFile = some out ∧
      (out.documents.get? i).map DocumentOut.embedding =
        some ((fetchData c.data limit).embeddings.getD i []) := by
  unfold export_chromadb
  rw [hfind]
  dsimp only
  split <;>
  · refine ⟨_, rfl, ?_⟩
    rw [List.get?_map, List.get?_range hi]
    dsimp only [Option.map_some']
    rw [if_pos hie, map_pyFloat]

/-- Closed instance of C7 at document index 0 of a one-document collection. -/
theorem export_embedding_round_trip_witness :
    (([⟨"conversations", ⟨["a"], [[1, 2]], ["t"], [[]]⟩⟩] : List Collection).find?
        (fun x => x.name == "conversations") =
      some ⟨"conversations", ⟨["a"], [[1, 2]], ["t"], [[]]⟩⟩) ∧
    0 < (fetchData (Collection.mk "conversations" ⟨["a"], [[1, 2]], ["t"], [[]]⟩).data
        none).ids.length ∧
    0 < (fetchData (Collection.mk "conversations" ⟨["a"], [[1, 2]], ["t"], [[]]⟩).data
        none).embeddings.length ∧
    ∃ out,
      (export_chromadb zeroAlgorithms
          [⟨"conversations", ⟨["a"], [[1, 2]], ["t"], [[]]⟩⟩] "conversations" none
          false).writtenFile = some out ∧
      (out.documents.get? 0).map DocumentOut.embedding =
        some ((fetchData
          (Collection.mk "conversations" ⟨["a"], [[1, 2]], ["t"], [[]]⟩).data
          none).embeddings.getD 0 []) :=
  ⟨rfl, by decide, by decide,
    export_embedding_round_trip zeroAlgorithms
      [⟨"conversations", ⟨["a"], [[1, 2]], ["t"], [[]]⟩⟩] "conversations" none false
      ⟨"conversations", ⟨["a"], [[1, 2]], ["t"], [[]]⟩⟩ rfl 0 (by decide) (by decide)⟩

end ChromaExport
